import Mathlib

/-!
Verification of the Adaptive Signal Engine embedded in `ci_build.py`
(the generated `app/app.py`).  Python floats are modelled by `ℚ`, and
possibly-NaN float values (pandas missing values) by `Option ℚ`: `none`
models NaN, and every ordered comparison against `none` is `false`,
matching IEEE NaN comparison semantics used by the Python `if` chains.
-/

namespace MPAC

/-- Volatility regime labels produced by the `vol_regime` if-chain. -/
inductive VolRegime where
  | Low
  | Medium
  | High
deriving DecidableEq

/-- Trend bias labels produced at `trend_bias = "Bullish" if ... else "Bearish"`. -/
inductive TrendBias where
  | Bullish
  | Bearish
deriving DecidableEq

/-- Momentum state selected by the narrative phrase chain on `rsi_val`. -/
inductive MomentumState where
  | Overbought
  | Oversold
  | Neutral
deriving DecidableEq

/-- Data-mode label chosen together with the indicator windows
(`"Production"`, `"Reduced History"`, `"Demo"` in the source). -/
inductive Mode where
  | Production
  | ReducedHistory
  | Demo
deriving DecidableEq

/-- The five adaptive indicator windows plus the mode label, as assigned by
the `if data_len >= 100 / elif data_len >= 60 / else` block. -/
structure WindowConfig where
  sma_short : ℕ
  sma_long : ℕ
  ema_win : ℕ
  rsi_win : ℕ
  vol_win : ℕ
  mode : Mode
deriving DecidableEq

/-- The adaptive-window selection block of the app:
`data_len >= 100` gives the Production preset, `data_len >= 60` the
Reduced History preset, and anything smaller the Demo preset. -/
def selectWindows (data_len : ℤ) : WindowConfig :=
  if data_len ≥ 100 then ⟨20, 50, 20, 14, 20, Mode.Production⟩
  else if data_len ≥ 60 then ⟨14, 30, 14, 10, 14, Mode.ReducedHistory⟩
  else ⟨3, 5, 3, 3, 3, Mode.Demo⟩

/-- `x < c` for a possibly-NaN float `x`: NaN compares false. -/
def fltLt (x : Option ℚ) (c : ℚ) : Bool :=
  match x with
  | none => false
  | some v => decide (v < c)

/-- The volatility-regime if-chain of the app, on the latest volatility
value (`latest_vol < 0.01` gives Low, `elif latest_vol < 0.025` Medium,
`else` High); `none` models a NaN `latest_vol`. -/
def vol_regime (latest_vol : Option ℚ) : VolRegime :=
  if fltLt latest_vol 0.01 then VolRegime.Low
  else if fltLt latest_vol 0.025 then VolRegime.Medium
  else VolRegime.High

/-- `trend_bias = "Bullish" if df["EMA"].iloc[-1] > df["SMA_short"].iloc[-1]
else "Bearish"` from the app, as a function of the two latest values. -/
def trend_bias (ema_last sma_short_last : ℚ) : TrendBias :=
  if ema_last > sma_short_last then TrendBias.Bullish else TrendBias.Bearish

/-- The narrative momentum phrase chain of the app:
`rsi_val > 70` gives overbought, `rsi_val < 30` oversold, else balanced. -/
def momentum_state (rsi_val : ℚ) : MomentumState :=
  if rsi_val > 70 then MomentumState.Overbought
  else if rsi_val < 30 then MomentumState.Oversold
  else MomentumState.Neutral

/-- Indices of the trailing window of length `w` ending at row `i`
(`max 0 (i-w+1) .. i`), as pandas `rolling(w)` sees it at row `i`. -/
def windowIdx (w i : ℕ) : List ℕ := List.range' (i + 1 - w) (min w (i + 1))

/-- Arithmetic mean of a list of rationals (0 on the empty list, which no
caller reaches with a positive window). -/
def listMean (xs : List ℚ) : ℚ := xs.sum / xs.length

/-- `ta.trend.sma_indicator(close, window=w, fillna=True)`: a rolling mean
with `min_periods=0`, so row `i` averages the available trailing closes
at indices `max 0 (i-w+1) .. i` (best-available fill in the warm-up region). -/
def sma_indicator (closes : List ℚ) (w : ℕ) : List ℚ :=
  (List.range closes.length).map (fun i =>
    listMean ((windowIdx w i).map (fun j => closes.getD j 0)))

/-- `ta.trend.ema_indicator(close, window=w, fillna=True)`: exponential
moving average with smoothing `α = 2/(w+1)` (pandas `ewm(span=w,
adjust=False)`), seeded with the first close. -/
def ema_indicator (closes : List ℚ) (w : ℕ) : List ℚ :=
  match closes with
  | [] => []
  | c :: rest =>
    rest.scanl (fun prev x =>
      (2 / ((w : ℚ) + 1)) * x + (1 - 2 / ((w : ℚ) + 1)) * prev) c

/-- Modelled from the spec: indices of the Close-to-Close moves inside the
trailing momentum window ending at row `i` (moves exist only from index 1
on, so index 0 is dropped). `ta.momentum.rsi` is an external-library call
whose internals are not under src/; §4.2 of the spec describes it. -/
def moveIdx (w i : ℕ) : List ℕ := (windowIdx w i).filter (fun j => 1 ≤ j)

/-- Modelled from the spec: the upward Close-to-Close movement at index `j`. -/
def upMove (closes : List ℚ) (j : ℕ) : ℚ :=
  max (closes.getD j 0 - closes.getD (j - 1) 0) 0

/-- Modelled from the spec: the downward Close-to-Close movement at `j`. -/
def downMove (closes : List ℚ) (j : ℕ) : ℚ :=
  max (closes.getD (j - 1) 0 - closes.getD j 0) 0

/-- Modelled from the spec: average upward movement over the trailing
momentum window ending at row `i`. -/
def avgGain (closes : List ℚ) (w i : ℕ) : ℚ :=
  listMean ((moveIdx w i).map (upMove closes))

/-- Modelled from the spec: average downward movement over the trailing
momentum window ending at row `i`. -/
def avgLoss (closes : List ℚ) (w i : ℕ) : ℚ :=
  listMean ((moveIdx w i).map (downMove closes))

/-- Modelled from the spec: the momentum oscillator at row `i` — the ratio
of average upward to average downward movement rescaled to [0,100], i.e.
`100·up/(up+down)`, and 50 (neutral) when there is no movement in the
window; warm-up rows (empty move window) fall under the same no-movement
policy and also give 50, matching `fillna=True`. -/
def rsiAt (closes : List ℚ) (w i : ℕ) : ℚ :=
  if avgGain closes w i + avgLoss closes w i = 0 then 50
  else 100 * avgGain closes w i / (avgGain closes w i + avgLoss closes w i)

/-- Modelled from the spec: the momentum oscillator column,
`ta.momentum.rsi(close, window=w, fillna=True)`. -/
def rsi (closes : List ℚ) (w : ℕ) : List ℚ :=
  (List.range closes.length).map (rsiAt closes w)

/-- `df["Close"].pct_change()`: `Returns[i] = (Close[i]-Close[i-1])/Close[i-1]`
for `i ≥ 1`, NaN (`none`) at `i = 0`. -/
def pct_change (closes : List ℚ) : List (Option ℚ) :=
  (List.range closes.length).map (fun i =>
    if i = 0 then none
    else some ((closes.getD i 0 - closes.getD (i - 1) 0) / closes.getD (i - 1) 0))

/-- Sample variance with `ddof = 1` (denominator `n - 1`), the default of
pandas `rolling(...).std()` squared. -/
def sampleVar (xs : List ℚ) : ℚ :=
  ((xs.map (fun x => (x - listMean xs) ^ 2)).sum) / ((xs.length : ℚ) - 1)

/-- `df["Returns"].rolling(vol_win, min_periods=1).std()`.  Row `i` sees the
valid (non-NaN) returns among the trailing `w` rows; pandas yields NaN
(`none`) when fewer than 2 valid observations exist (the count must reach
`min_periods = 1`, and the sample std with `ddof = 1` of a single
observation is itself NaN), and otherwise the sample standard deviation.
Because the square root of a rational is irrational, the value carried
here is the sample *variance*, the square of the code's value: NaN-ness
coincides exactly, and the regime thresholds transfer by squaring (see
`volRegimeOfVar` and the lemma `volRegimeOfVar_sq`). -/
def rollingVarList (returns : List (Option ℚ)) (w : ℕ) : List (Option ℚ) :=
  (List.range returns.length).map (fun i =>
    let valid := (windowIdx w i).filterMap (fun j => returns.getD j none)
    if valid.length < 2 then none else some (sampleVar valid))

/-- `x < c` for a possibly-NaN carried variance `x` against a std threshold
`c > 0`: `√x < c ↔ x < c²` for a nonnegative variance; NaN compares false. -/
def varLtSq (x : Option ℚ) (c : ℚ) : Bool :=
  match x with
  | none => false
  | some v => decide (v < c ^ 2)

/-- The volatility-regime if-chain applied to the carried variance:
identical to `vol_regime` on the std, with the thresholds squared. -/
def volRegimeOfVar (latest_var : Option ℚ) : VolRegime :=
  if varLtSq latest_var 0.01 then VolRegime.Low
  else if varLtSq latest_var 0.025 then VolRegime.Medium
  else VolRegime.High

/-- The indicator columns the app adds to the dataframe (lines 74–80). -/
structure IndicatorSeries where
  SMA_short : List ℚ
  SMA_long : List ℚ
  EMA : List ℚ
  RSI : List ℚ
  Returns : List (Option ℚ)
  Volatility : List (Option ℚ)
deriving DecidableEq

/-- The indicator block of the app (lines 74–80), for a given window
configuration. -/
def computeIndicators (closes : List ℚ) (cfg : WindowConfig) : IndicatorSeries :=
  { SMA_short := sma_indicator closes cfg.sma_short
    SMA_long := sma_indicator closes cfg.sma_long
    EMA := ema_indicator closes cfg.ema_win
    RSI := rsi closes cfg.rsi_win
    Returns := pct_change closes
    Volatility := rollingVarList (pct_change closes) cfg.vol_win }

/-- The classification of the last bar. -/
structure SignalSnapshot where
  volatilityRegime : VolRegime
  trendBias : TrendBias
  momentumState : MomentumState
  latestMomentum : ℚ
deriving DecidableEq

/-- Last-bar classification (lines 83–89 and 170–183):
`latest_vol = df["Volatility"].iloc[-1]` raises IndexError on an empty
frame — the spec's InsufficientData, modelled as `none` — and otherwise
the three if-chains run on the latest values.  The carried variance goes
through the squared thresholds (`volRegimeOfVar`). -/
def classify (ind : IndicatorSeries) : Option SignalSnapshot :=
  match ind.Volatility.getLast? with
  | none => none
  | some latest_vol =>
    some { volatilityRegime := volRegimeOfVar latest_vol
           trendBias := trend_bias (ind.EMA.getLastD 0) (ind.SMA_short.getLastD 0)
           momentumState := momentum_state (ind.RSI.getLastD 0)
           latestMomentum := ind.RSI.getLastD 0 }

/-- The four sidebar checkboxes (lines 50–53). -/
structure Toggles where
  show_sma : Bool
  show_ema : Bool
  show_rsi : Bool
  show_volume : Bool

/-- What one run of the app script produces: the figure structure, which
reads the toggles (subplot row count at line 92, traces added at lines
104–154), and the computed values (indicator columns and last-bar
classification), which do not. -/
structure AppOutput where
  figRows : ℕ
  traces : List String
  indicators : IndicatorSeries
  snapshot : Option SignalSnapshot

/-- One run of the app script on a loaded Close series, following the text
order of the source: adaptive windows from `len(df)`, indicator columns,
figure rows and traces gated by the toggles, last-bar classification. -/
def appRun (t : Toggles) (closes : List ℚ) : AppOutput :=
  let cfg := selectWindows (closes.length : ℤ)
  let ind := computeIndicators closes cfg
  { figRows := if t.show_rsi then 2 else 1
    traces :=
      ["Price"]
      ++ (if t.show_volume then ["Volume"] else [])
      ++ (if t.show_sma then ["SMA short", "SMA long"] else [])
      ++ (if t.show_ema then ["EMA"] else [])
      ++ (if t.show_rsi then ["RSI"] else [])
    indicators := ind
    snapshot := classify ind }

/-- The Close column of the bundled `data/sample_data.csv` (4 rows). -/
def sampleCloses : List ℚ := [42300, 42850, 42600, 42100]

/-- Element `i < n` of `(List.range n).map f` under `getD`. -/
theorem getD_range_map {α : Type} (f : ℕ → α) (d : α) {n i : ℕ} (h : i < n) :
    ((List.range n).map f).getD i d = f i := by
  simp [List.getD_eq_getElem?_getD, List.getElem?_map, List.getElem?_range, h]

/-- `pct_change` preserves the series length. -/
theorem pct_change_length (closes : List ℚ) :
    (pct_change closes).length = closes.length := by
  simp [pct_change]

/-- `rollingVarList` preserves the series length. -/
theorem rollingVarList_length (xs : List (Option ℚ)) (w : ℕ) :
    (rollingVarList xs w).length = xs.length := by
  simp [rollingVarList]

/-- The sma column preserves the series length. -/
theorem sma_indicator_length (closes : List ℚ) (w : ℕ) :
    (sma_indicator closes w).length = closes.length := by
  simp [sma_indicator]

/-- The ema column preserves the series length. -/
theorem ema_indicator_length (closes : List ℚ) (w : ℕ) :
    (ema_indicator closes w).length = closes.length := by
  cases closes with
  | nil => rfl
  | cons c rest => simp [ema_indicator, List.length_scanl]

/-- The momentum column preserves the series length. -/
theorem rsi_length (closes : List ℚ) (w : ℕ) :
    (rsi closes w).length = closes.length := by
  simp [rsi]

/-- Pointwise description of `pct_change` inside the series. -/
theorem pct_change_getD (closes : List ℚ) {i : ℕ} (h : i < closes.length) :
    (pct_change closes).getD i none =
      if i = 0 then none
      else some ((closes.getD i 0 - closes.getD (i - 1) 0) / closes.getD (i - 1) 0) := by
  unfold pct_change
  exact getD_range_map _ _ h

/-- Pointwise description of `rollingVarList` inside the series. -/
theorem rollingVarList_getD (xs : List (Option ℚ)) (w : ℕ) {i : ℕ} (h : i < xs.length) :
    (rollingVarList xs w).getD i none =
      if ((windowIdx w i).filterMap (fun j => xs.getD j none)).length < 2 then none
      else some (sampleVar ((windowIdx w i).filterMap (fun j => xs.getD j none))) := by
  unfold rollingVarList
  exact getD_range_map _ _ h

/-- From index 2 on, the trailing window of length `w ≥ 2` ends with the two
indices `i-1, i`. -/
theorem windowIdx_split {w i : ℕ} (hw : 2 ≤ w) (hi : 2 ≤ i) :
    ∃ pre : List ℕ, windowIdx w i = pre ++ [i - 1, i] := by
  refine ⟨List.range' (i + 1 - w) (min w (i + 1) - 2), ?_⟩
  have h := List.range'_append (i + 1 - w) (min w (i + 1) - 2) 2 1
  have hlo : i + 1 - w + 1 * (min w (i + 1) - 2) = i - 1 := by omega
  have hlen : 2 + (min w (i + 1) - 2) = min w (i + 1) := by omega
  rw [hlo, hlen] at h
  have h2 : List.range' (i - 1) 2 = [i - 1, i] := by
    have h3 : i - 1 + 1 = i := by omega
    simp [List.range', h3]
  rw [h2] at h
  unfold windowIdx
  exact h.symm

/-- From index 2 on, the rolling window over the returns holds at least two
valid observations (the returns at `i-1 ≥ 1` and at `i`). -/
theorem two_le_validCount (closes : List ℚ) {w i : ℕ} (hw : 2 ≤ w) (hi : 2 ≤ i)
    (hn : i < closes.length) :
    2 ≤ ((windowIdx w i).filterMap
          (fun j => (pct_change closes).getD j none)).length := by
  obtain ⟨pre, hpre⟩ := windowIdx_split hw hi
  rw [hpre, List.filterMap_append, List.length_append]
  have h1 := pct_change_getD closes (show i - 1 < closes.length by omega)
  have h2 := pct_change_getD closes hn
  rw [if_neg (show ¬ i - 1 = 0 by omega)] at h1
  rw [if_neg (show ¬ i = 0 by omega)] at h2
  have h3 : ([i - 1, i].filterMap
      (fun j => (pct_change closes).getD j none)).length = 2 := by
    rw [List.getD_eq_getElem?_getD] at h1 h2
    simp [List.filterMap_cons, h1, h2]
  omega

/-- The volatility column is defined (non-NaN) from index 2 on, for a
volatility window of at least 2. -/
theorem volatility_defined (closes : List ℚ) {w i : ℕ} (hw : 2 ≤ w) (hi : 2 ≤ i)
    (hn : i < closes.length) :
    (rollingVarList (pct_change closes) w).getD i none ≠ none := by
  rw [rollingVarList_getD _ _ (by rw [pct_change_length]; exact hn)]
  rw [if_neg (by have := two_le_validCount closes hw hi hn; omega)]
  simp

/-- The volatility column is NaN at indices 0 and 1: the window there holds
at most one valid return, and the sample std (ddof = 1) of fewer than two
observations is NaN, `min_periods=1` notwithstanding. -/
theorem volatility_undefined_early (closes : List ℚ) {w i : ℕ} (hw : 2 ≤ w) (hi : i ≤ 1)
    (hn : i < closes.length) :
    (rollingVarList (pct_change closes) w).getD i none = none := by
  rw [rollingVarList_getD _ _ (by rw [pct_change_length]; exact hn)]
  interval_cases i
  · have hwi : windowIdx w 0 = [0] := by
      unfold windowIdx
      have ha : 0 + 1 - w = 0 := by omega
      have hb : min w (0 + 1) = 1 := by omega
      rw [ha, hb]
      rfl
    have h0 := pct_change_getD closes hn
    rw [if_pos rfl] at h0
    rw [List.getD_eq_getElem?_getD] at h0
    rw [hwi]
    simp [List.filterMap_cons, h0]
  · have hwi : windowIdx w 1 = [0, 1] := by
      unfold windowIdx
      have ha : 1 + 1 - w = 0 := by omega
      have hb : min w (1 + 1) = 2 := by omega
      rw [ha, hb]
      rfl
    have h0 := pct_change_getD closes (show 0 < closes.length by omega)
    rw [if_pos rfl] at h0
    have h1 := pct_change_getD closes hn
    rw [if_neg (by omega)] at h1
    rw [List.getD_eq_getElem?_getD] at h0 h1
    rw [hwi]
    simp [List.filterMap_cons, h0, h1]

/-- Every preset's volatility window is at least 2. -/
theorem two_le_vol_win (n : ℤ) : 2 ≤ (selectWindows n).vol_win := by
  unfold selectWindows
  split_ifs <;> norm_num

/-- `classify` fails exactly when the volatility column has no last element. -/
theorem classify_eq_none_iff (ind : IndicatorSeries) :
    classify ind = none ↔ ind.Volatility.getLast? = none := by
  unfold classify
  cases ind.Volatility.getLast? <;> simp

/-- Sanity: the squared-threshold regime on the carried variance agrees with
the source's regime chain on the standard deviation. -/
theorem volRegimeOfVar_sq (c : ℚ) (hc : 0 ≤ c) :
    volRegimeOfVar (some (c ^ 2)) = vol_regime (some c) := by
  unfold volRegimeOfVar vol_regime varLtSq fltLt
  have h1 : c ^ 2 < (0.01 : ℚ) ^ 2 ↔ c < 0.01 := by
    constructor <;> intro h <;> nlinarith
  have h2 : c ^ 2 < (0.025 : ℚ) ^ 2 ↔ c < 0.025 := by
    constructor <;> intro h <;> nlinarith
  simp only [decide_eq_true_eq, h1, h2]

/-- Claim C1: for every real latest volatility value `v`, the regime is Low
exactly when `v < 0.01`, Medium exactly when `0.01 ≤ v < 0.025`, and High
exactly when `v ≥ 0.025`; both lower bounds are inclusive for the higher
regime. -/
theorem C1_vol_regime_thresholds (v : ℚ) :
    (vol_regime (some v) = VolRegime.Low ↔ v < 0.01) ∧
    (vol_regime (some v) = VolRegime.Medium ↔ 0.01 ≤ v ∧ v < 0.025) ∧
    (vol_regime (some v) = VolRegime.High ↔ 0.025 ≤ v) := by
  unfold vol_regime fltLt
  by_cases h1 : v < 0.01 <;> by_cases h2 : v < 0.025 <;>
    simp [h1, h2] <;> linarith

/-- Claim C2: the window selector is total and returns the Production preset
exactly when `barCount ≥ 100`, the ReducedHistory preset exactly when
`60 ≤ barCount < 100`, and the Demo preset exactly when `barCount < 60`. -/
theorem C2_selectWindows_presets (n : ℤ) :
    (selectWindows n = ⟨20, 50, 20, 14, 20, Mode.Production⟩ ↔ 100 ≤ n) ∧
    (selectWindows n = ⟨14, 30, 14, 10, 14, Mode.ReducedHistory⟩ ↔ 60 ≤ n ∧ n < 100) ∧
    (selectWindows n = ⟨3, 5, 3, 3, 3, Mode.Demo⟩ ↔ n < 60) := by
  unfold selectWindows
  by_cases h1 : n ≥ 100 <;> by_cases h2 : n ≥ 60 <;>
    simp [h1, h2, WindowConfig.mk.injEq] <;> omega

/-- Claim C3: the trend bias is Bullish exactly when `EMA[last]` strictly
exceeds `shortMA[last]`, Bearish exactly when `EMA[last] ≤ shortMA[last]`,
and in particular exact equality yields Bearish. -/
theorem C3_trend_bias_tiebreak (e s : ℚ) :
    (trend_bias e s = TrendBias.Bullish ↔ s < e) ∧
    (trend_bias e s = TrendBias.Bearish ↔ e ≤ s) ∧
    trend_bias s s = TrendBias.Bearish := by
  unfold trend_bias
  by_cases h : s < e <;> simp [h] <;> try linarith

/-- Claim C4: the momentum state is Overbought exactly when `m > 70`,
Oversold exactly when `m < 30`, Neutral exactly when `30 ≤ m ≤ 70`; the
boundary values 30 and 70 both yield Neutral. -/
theorem C4_momentum_state_thresholds (m : ℚ) :
    (momentum_state m = MomentumState.Overbought ↔ 70 < m) ∧
    (momentum_state m = MomentumState.Oversold ↔ m < 30) ∧
    (momentum_state m = MomentumState.Neutral ↔ 30 ≤ m ∧ m ≤ 70) ∧
    momentum_state 30 = MomentumState.Neutral ∧
    momentum_state 70 = MomentumState.Neutral := by
  refine ⟨?_, ?_, ?_, by decide, by decide⟩ <;>
    (unfold momentum_state; by_cases h1 : m > 70 <;> by_cases h2 : m < 30 <;>
      simp [h1, h2]) <;> first | linarith | (constructor <;> linarith)

/-- Claim C5 (amended): for every input series, the six indicator columns
all have the length of the input (SMA, EMA and momentum are total by
construction), periodReturn is defined exactly away from index 0, and the
volatility column is defined exactly from index 2 on: despite
`min_periods=1`, the sample standard deviation (ddof = 1) of the single
valid return in the window ending at index 1 is NaN, so index 1 joins
index 0 as undefined. -/
theorem C5_indicator_lengths_and_definedness (closes : List ℚ) :
    (computeIndicators closes (selectWindows (closes.length : ℤ))).SMA_short.length
        = closes.length ∧
    (computeIndicators closes (selectWindows (closes.length : ℤ))).SMA_long.length
        = closes.length ∧
    (computeIndicators closes (selectWindows (closes.length : ℤ))).EMA.length
        = closes.length ∧
    (computeIndicators closes (selectWindows (closes.length : ℤ))).RSI.length
        = closes.length ∧
    (computeIndicators closes (selectWindows (closes.length : ℤ))).Returns.length
        = closes.length ∧
    (computeIndicators closes (selectWindows (closes.length : ℤ))).Volatility.length
        = closes.length ∧
    (∀ i, i < closes.length →
      ((computeIndicators closes (selectWindows (closes.length : ℤ))).Returns.getD i none
          = none ↔ i = 0)) ∧
    (∀ i, i < closes.length →
      ((computeIndicators closes (selectWindows (closes.length : ℤ))).Volatility.getD i none
          = none ↔ i ≤ 1)) := by
  have hw := two_le_vol_win (closes.length : ℤ)
  refine ⟨sma_indicator_length _ _, sma_indicator_length _ _, ema_indicator_length _ _,
    rsi_length _ _, pct_change_length _, ?_, ?_, ?_⟩
  · show (rollingVarList (pct_change closes) _).length = _
    rw [rollingVarList_length, pct_change_length]
  · intro i hi
    show (pct_change closes).getD i none = none ↔ i = 0
    rw [pct_change_getD closes hi]
    by_cases h : i = 0 <;> simp [h]
  · intro i hi
    show (rollingVarList (pct_change closes) _).getD i none = none ↔ i ≤ 1
    constructor
    · intro h
      by_contra hgt
      exact volatility_defined closes hw (by omega) hi h
    · intro h
      exact volatility_undefined_early closes hw h hi

/-- Claim C5 counterexample: on the bundled 4-row sample series (Demo
windows), the volatility column is undefined (NaN) at index 1, an interior
index `≥ 1`, refuting "volatility[i] is defined for every i ≥ 1". -/
theorem C5_counterexample :
    (computeIndicators sampleCloses
      (selectWindows (sampleCloses.length : ℤ))).Volatility.getD 1 none = none := by
  decide

/-- Claim C6 (amended): every window of the preset chosen for the series
length stays within the series length provided the series has at least 5
bars (the largest Demo-tier window); for shorter series the Demo long-MA
window 5 exceeds the length. -/
theorem C6_windows_bounded (closes : List ℚ) (h : 5 ≤ closes.length) :
    (selectWindows (closes.length : ℤ)).sma_short ≤ closes.length ∧
    (selectWindows (closes.length : ℤ)).sma_long ≤ closes.length ∧
    (selectWindows (closes.length : ℤ)).ema_win ≤ closes.length ∧
    (selectWindows (closes.length : ℤ)).rsi_win ≤ closes.length ∧
    (selectWindows (closes.length : ℤ)).vol_win ≤ closes.length := by
  unfold selectWindows
  split_ifs with h1 h2 <;> dsimp only <;>
    exact ⟨by omega, by omega, by omega, by omega, by omega⟩

/-- Witness for the amended Claim C6 at a concrete 5-bar series. -/
theorem C6_windows_bounded_witness :
    5 ≤ ([1, 2, 3, 4, 5] : List ℚ).length ∧
    (selectWindows ((([1, 2, 3, 4, 5] : List ℚ).length : ℕ) : ℤ)).sma_long
      ≤ ([1, 2, 3, 4, 5] : List ℚ).length :=
  ⟨by decide, (C6_windows_bounded [1, 2, 3, 4, 5] (by decide)).2.1⟩

/-- Claim C6 counterexample: the bundled sample series has 4 bars, the Demo
preset is chosen, and its long-MA window 5 exceeds the series length. -/
theorem C6_counterexample :
    (selectWindows (sampleCloses.length : ℤ)).sma_long = 5 ∧
    ¬ (selectWindows (sampleCloses.length : ℤ)).sma_long ≤ sampleCloses.length := by
  decide

/-- Claim C7: classification fails (InsufficientData, the IndexError of
`iloc[-1]`) exactly on the empty series, and for no other input; indicator
computation on the empty series returns the six empty columns rather than
an error. -/
theorem C7_insufficient_data_iff_empty (closes : List ℚ) (cfg : WindowConfig) :
    (classify (computeIndicators closes (selectWindows (closes.length : ℤ))) = none
      ↔ closes = []) ∧
    computeIndicators [] cfg = ⟨[], [], [], [], [], []⟩ := by
  constructor
  · rw [classify_eq_none_iff, List.getLast?_eq_none_iff]
    constructor
    · intro h
      have hlen : (computeIndicators closes
          (selectWindows (closes.length : ℤ))).Volatility.length = closes.length := by
        show (rollingVarList (pct_change closes) _).length = _
        rw [rollingVarList_length, pct_change_length]
      rw [h] at hlen
      exact List.length_eq_zero.mp hlen.symm
    · intro h
      subst h
      rfl
  · rfl

/-- Claim C8: whenever the average upward and downward Close-to-Close
movements over the trailing momentum window are both zero (no movement),
the momentum oscillator value is 50, not undefined; the oscillator is a
total function, so its division never fails. -/
theorem C8_rsi_no_movement_is_50 (closes : List ℚ) (w i : ℕ)
    (hg : avgGain closes w i = 0) (hl : avgLoss closes w i = 0) :
    rsiAt closes w i = 50 := by
  unfold rsiAt
  rw [hg, hl]
  norm_num

/-- Witness for Claim C8 at a concrete motionless series. -/
theorem C8_rsi_no_movement_witness :
    avgGain [5, 5, 5] 3 2 = 0 ∧ avgLoss [5, 5, 5] 3 2 = 0 ∧
    rsiAt [5, 5, 5] 3 2 = 50 := by
  have hg : avgGain [5, 5, 5] 3 2 = 0 := by
    norm_num [avgGain, moveIdx, windowIdx, upMove, listMean, List.range']
  have hl : avgLoss [5, 5, 5] 3 2 = 0 := by
    norm_num [avgLoss, moveIdx, windowIdx, downMove, listMean, List.range']
  exact ⟨hg, hl, C8_rsi_no_movement_is_50 [5, 5, 5] 3 2 hg hl⟩

/-- Claim C9: the four display toggles do not interfere with the computed
values — any two runs of the app that differ only in the toggles produce
identical indicator columns and an identical last-bar classification
(regime, bias, momentum value), even though the figure they build differs. -/
theorem C9_toggles_do_not_change_values (t1 t2 : Toggles) (closes : List ℚ) :
    (appRun t1 closes).indicators = (appRun t2 closes).indicators ∧
    (appRun t1 closes).snapshot = (appRun t2 closes).snapshot :=
  ⟨rfl, rfl⟩

/-- Claim C10: on a series of length exactly 1, the latest volatility value
is NaN (no defined return exists), and classification does not fail: both
threshold comparisons on the NaN are false, so the final else assigns the
High regime. -/
theorem C10_single_bar_is_high (c : ℚ) :
    (computeIndicators [c] (selectWindows ((([c] : List ℚ).length : ℕ) : ℤ))).Volatility
        = [none] ∧
    ((classify (computeIndicators [c]
        (selectWindows ((([c] : List ℚ).length : ℕ) : ℤ)))).map
      (fun s => s.volatilityRegime)) = some VolRegime.High :=
  ⟨rfl, rfl⟩

end MPAC
